import Mathlib

/-!
# Scriberr transcription pipeline — verification development

A shallow embedding of the Scriberr asynchronous job-processing pipeline
(Go sources: the S3 job processor, the submission handlers, the file
service with its downloaded-files cache, and the backend result parsers),
together with theorems settling the specification's claims about it.

External effects (S3 GetObject/PutObject, EventBridge PutEvents, HTTP
fetches, the unified transcription backend) are modelled as outcome
functions supplied through an environment record; the database is an
association list of job records; the local filesystem is the list of
existing paths.  Every persisted status write is additionally recorded in
an observation log so that status-transition claims can be stated.
-/

namespace Scriberr

/-- Persisted job status (models.StatusPending, StatusProcessing,
StatusCompleted, StatusFailed, StatusUploaded). -/
inductive JobStatus
  | pending
  | processing
  | completed
  | failed
  | uploaded
deriving DecidableEq, Repr

/-- Model-specific option bag carried by a job (models.JobParameters,
restricted to the fields the embedded code reads or writes). -/
structure JobParameters where
  diarize : Bool
  language : Option String
deriving DecidableEq, Repr

/-- models.TranscriptionJob, restricted to the fields the embedded code
reads or writes.  `outputBucket` is the S3-submission field `OutputBucket`;
`outputBucketName` is the AWS-handler field `OutputBucketName`. -/
structure TranscriptionJob where
  id : String
  audioPath : String
  audioUri : Option String
  outputBucket : Option String
  outputBucketName : Option String
  title : Option String
  tags : Option String
  transcript : Option String
  parameters : JobParameters
  diarization : Bool
  status : JobStatus
deriving DecidableEq, Repr

/-- models.TranscriptionProfile, restricted to the fields the handlers read. -/
structure TranscriptionProfile where
  name : String
  parameters : JobParameters
deriving DecidableEq, Repr

/-- Structural character-list variant of strings.HasPrefix. -/
def listStartsWith : List Char → List Char → Bool
  | _, [] => true
  | [], _ :: _ => false
  | a :: as, b :: bs => a = b && listStartsWith as bs

/-- The characters of the "s3://" URI scheme. -/
def s3SchemeChars : List Char := ['s', '3', ':', '/', '/']

/-- strings.SplitN(s, "/", 2) on a character list: `none` when no slash is
present (the Go code then reports an invalid-URI-format error), otherwise
the part before the first slash and everything after it. -/
def splitN2Slash : List Char → Option (List Char × List Char)
  | [] => none
  | c :: cs =>
    if c = '/' then some ([], cs)
    else
      match splitN2Slash cs with
      | none => none
      | some (b, k) => some (c :: b, k)

/-- strings.Split on a character list (used for the language shortcode). -/
def splitOnChar : List Char → Char → List (List Char)
  | [], _ => [[]]
  | c :: cs, sep =>
    let rest := splitOnChar cs sep
    if c = sep then [] :: rest
    else
      match rest with
      | [] => [[c]]
      | r :: rs => (c :: r) :: rs

/-- filepath.Base: the last path element after dropping trailing slashes;
"." for the empty path, "/" when the path is all slashes. -/
def filepathBase (p : String) : String :=
  if p = "" then "."
  else
    let parts := (splitOnChar p.data '/').filter (· ≠ [])
    match parts.getLast? with
    | some last => String.mk last
    | none => "/"

/-- filepath.Join on two elements (path cleaning elided: neither joined
element in the embedded call sites is empty or contains dot segments). -/
def filepathJoin (a b : String) : String :=
  if a = "" then b else if b = "" then a else a ++ "/" ++ b

/-- Bucket and key of an s3:// URI: TrimPrefix by the five scheme
characters, then SplitN on "/" with limit 2. -/
def s3BucketKey (uri : String) : Option (String × String) :=
  match splitN2Slash (uri.data.drop 5) with
  | none => none
  | some (b, k) => some (String.mk b, String.mk k)

/-- The system state threaded through the embedded operations: the job
repository (association list keyed by job id), the task-queue contents,
the local filesystem (existing paths), the fileService downloadedFiles
cache (path, creation time), a network-fetch counter, delivered
lifecycle events, and the log of persisted status writes
(job id, status before, status after). -/
structure SysState where
  repo : List TranscriptionJob
  queue : List String
  fs : List String
  cache : List (String × Int)
  fetches : Nat
  events : List (String × String)
  writes : List (String × JobStatus × JobStatus)
deriving DecidableEq, Repr

/-- repository.JobRepository.FindByID. -/
def findByID (repo : List TranscriptionJob) (jobID : String) : Option TranscriptionJob :=
  repo.find? (fun j => j.id == jobID)

/-- repository.JobRepository.Update: replace the record with the same id. -/
def repoUpdate (repo : List TranscriptionJob) (job : TranscriptionJob) : List TranscriptionJob :=
  repo.map (fun j => if j.id == job.id then job else j)

/-- jobRepo.Update lifted to the system state; the persisted status write
is also recorded in the observation log. -/
def stUpdate (st : SysState) (job : TranscriptionJob) : SysState :=
  let old :=
    match findByID st.repo job.id with
    | some j => j.status
    | none => job.status
  { st with repo := repoUpdate st.repo job,
            writes := st.writes ++ [(job.id, old, job.status)] }

/-- jobRepo.Create lifted to the system state. -/
def stCreate (st : SysState) (job : TranscriptionJob) : SysState :=
  { st with repo := st.repo ++ [job] }

/-- The persisted status of a job. -/
def statusOf (repo : List TranscriptionJob) (jobID : String) : Option JobStatus :=
  (findByID repo jobID).map (·.status)

/-- Whether a fallible call returned an error. -/
def exceptIsError : Except String Unit → Bool
  | .error _ => true
  | .ok _ => false

/-- Outcomes of the external collaborators: S3 GetObject and PutObject
(by bucket and key), EventBridge PutEvents (by job id and event name), a
plain HTTP GET (transport error or status code), and the unified
transcription backend (error or produced transcript). -/
structure ProcEnv where
  getObject : String → String → Except String Unit
  putObject : String → String → Except String Unit
  putEvents : String → String → Except String Unit
  httpGet : String → Except String Nat
  unified : String → Except String String

/-- getJobName (part_001): the job title when set, otherwise the id. -/
def getJobName (job : TranscriptionJob) : String :=
  match job.title with
  | some t => t
  | none => job.id

/-! ## File service (internal/service/file_service.go) -/

/-- fileService.saveDownloadedFiles: record the saved path in the
downloadedFiles map with the current time (map assignment overwrites). -/
def saveDownloadedFiles (now : Int) (saveTo : String) (cache : List (String × Int)) :
    List (String × Int) :=
  (saveTo, now) :: cache.filter (fun e => e.1 ≠ saveTo)

/-- fileService.downloadS3File: parse bucket and key, issue one GetObject
network call, and on success create the local file and record it in the
downloadedFiles cache. -/
def fsDownloadS3File (env : ProcEnv) (now : Int) (url saveTo : String) (st : SysState) :
    SysState × Except String Unit :=
  match splitN2Slash (url.data.drop 5) with
  | none => (st, .error ("invalid S3 URI format: " ++ url))
  | some (b, k) =>
    let st1 := { st with fetches := st.fetches + 1 }
    match env.getObject (String.mk b) (String.mk k) with
    | .error e => (st1, .error ("failed to download from S3: " ++ e))
    | .ok _ =>
      ({ st1 with fs := saveTo :: st1.fs,
                  cache := saveDownloadedFiles now saveTo st1.cache }, .ok ())

/-- fileService.DownloadFile: s3:// URLs go through the S3 path; anything
else is fetched over HTTP, where a transport error or a non-200 status
aborts with an error and only a 200 response creates the local file. -/
def downloadFile (env : ProcEnv) (now : Int) (url saveTo : String) (st : SysState) :
    SysState × Except String Unit :=
  if listStartsWith url.data s3SchemeChars then fsDownloadS3File env now url saveTo st
  else
    let st1 := { st with fetches := st.fetches + 1 }
    match env.httpGet url with
    | .error e => (st1, .error ("failed to download file: " ++ e))
    | .ok status =>
      if status ≠ 200 then (st1, .error ("unexpected status code: " ++ toString status))
      else
        ({ st1 with fs := saveTo :: st1.fs,
                    cache := saveDownloadedFiles now saveTo st1.cache }, .ok ())

/-- The cleanup retention window (maxAge = 3 * time.Hour), in seconds. -/
def maxAge : Int := 3 * 60 * 60

/-- Collect phase of startDownloadedFilesCleanup (first critical section):
under the map lock, gather the paths of cache entries strictly older than
the retention window. -/
def collectPhase (now : Int) (cache : List (String × Int)) : List String :=
  (cache.filter (fun e => now - e.2 > maxAge)).map (·.1)

/-- One iteration of the delete loop: os.Remove the backing file (an
already-missing file is a no-op, the error is ignored) and delete the
cache entry for that path. -/
def removeOne (st : SysState) (path : String) : SysState :=
  { st with fs := st.fs.filter (fun p => p ≠ path),
            cache := st.cache.filter (fun e => e.1 ≠ path) }

/-- Delete phase of startDownloadedFilesCleanup (second critical section):
under the map lock, remove each collected file and prune its entry. -/
def deletePhase (toDelete : List String) (st : SysState) : SysState :=
  toDelete.foldl removeOne st

/-- One sweep of startDownloadedFilesCleanup: the collect phase and the
delete phase run as two separately-locked critical sections, so the sweep
factors into the two phase functions. -/
def cleanupSweep (now : Int) (st : SysState) : SysState :=
  deletePhase (collectPhase now st.cache) st

/-! ## S3 job processor (unnamed/part_001) -/

/-- S3JobProcessor.downloadS3File: reject non-s3 URIs, parse bucket and
key (error when no slash separates them), issue one GetObject network
call, and on success create the local file.  Unlike the file service's
variant, this one does not record the download in the cache. -/
def procDownloadS3File (env : ProcEnv) (uri saveTo : String) (st : SysState) :
    SysState × Except String Unit :=
  if listStartsWith uri.data s3SchemeChars then
    match splitN2Slash (uri.data.drop 5) with
    | none => (st, .error ("invalid S3 URI format: " ++ uri))
    | some (b, k) =>
      let st1 := { st with fetches := st.fetches + 1 }
      match env.getObject (String.mk b) (String.mk k) with
      | .error e => (st1, .error ("failed to download from S3: " ++ e))
      | .ok _ => ({ st1 with fs := saveTo :: st1.fs }, .ok ())
  else (st, .error ("invalid S3 URI: " ++ uri))

/-- Modelled from the spec: UnifiedJobProcessor.ProcessJob is not under
src/ (only its callers are).  Per the spec a worker "invokes Transcribe,
persists the result and final status (Completed/Failed)": on backend
success the job is persisted as Completed with its transcript, on backend
error it is persisted as Failed and the error is returned. -/
def unifiedProcess (env : ProcEnv) (jobID : String) (st : SysState) :
    SysState × Except String Unit :=
  match findByID st.repo jobID with
  | none => (st, .error "record not found")
  | some job =>
    match env.unified jobID with
    | .ok t =>
      (stUpdate st { job with status := JobStatus.completed, transcript := some t }, .ok ())
    | .error e =>
      (stUpdate st { job with status := JobStatus.failed }, .error e)

/-- The transcript-upload step of S3JobProcessor.ProcessSingleJob: skip
when no transcript was produced or OutputBucketName is unset, otherwise
PutObject the serialized transcript under getJobName(job).json; a
PutObject failure is returned as an error.  The step never writes job
state.  (The job's opaque tag string is attached to the upload; tag
handling does not influence control flow here.) -/
def uploadToS3 (env : ProcEnv) (pj : TranscriptionJob) : Except String Unit :=
  let transcript :=
    match pj.transcript with
    | some t => t
    | none => ""
  if transcript = "" then .ok ()
  else
    match pj.outputBucketName with
    | none => .ok ()
    | some bucket =>
      match env.putObject bucket (getJobName pj ++ ".json") with
      | .error e => .error ("failed to upload to S3: " ++ e)
      | .ok _ => .ok ()

/-- Post-resolution tail of S3JobProcessor.ProcessSingleJob: run the
unified processor, and for S3 jobs reload the processed job and run the
transcript-upload step, whose failure is the processing path's result. -/
def processTail (env : ProcEnv) (jobID : String) (isS3Job : Bool) (st : SysState) :
    SysState × Except String Unit :=
  match unifiedProcess env jobID st with
  | (st1, .error e) => (st1, .error e)
  | (st1, .ok _) =>
    if !isS3Job then (st1, .ok ())
    else
      match findByID st1.repo jobID with
      | none => (st1, .error "record not found")
      | some pj => (st1, uploadToS3 env pj)

/-- S3JobProcessor.ProcessSingleJob: load the job; if it is Pending,
persist the Pending→Processing transition immediately; then, for an
s3:// audio reference, derive uploadDir/Base(uri), download it
unconditionally (no local-existence check on this path), persist the
resolved audio path, and hand over to the unified processor and the
post-completion upload. -/
def processSingleJob (env : ProcEnv) (uploadDir jobID : String) (st0 : SysState) :
    SysState × Except String Unit :=
  match findByID st0.repo jobID with
  | none => (st0, .error "record not found")
  | some job0 =>
    let mp : SysState × TranscriptionJob :=
      if job0.status = JobStatus.pending then
        let j := { job0 with status := JobStatus.processing }
        (stUpdate st0 j, j)
      else (st0, job0)
    match mp.2.audioUri with
    | some uri =>
      if listStartsWith uri.data s3SchemeChars then
        let audioPath := filepathJoin uploadDir (filepathBase uri)
        match procDownloadS3File env uri audioPath mp.1 with
        | (st2, .error e) => (st2, .error e)
        | (st2, .ok _) =>
          processTail env jobID true (stUpdate st2 { mp.2 with audioPath := audioPath })
      else processTail env jobID false mp.1
    | none => processTail env jobID false mp.1

/-- S3JobProcessor.publishNotifications: reload the job (a load failure is
logged and abandons the notification) and send the lifecycle event to
EventBridge; a PutEvents failure is logged only — no state changes. -/
def publishNotifications (env : ProcEnv) (jobID event : String) (st : SysState) : SysState :=
  match findByID st.repo jobID with
  | none => st
  | some _ =>
    match env.putEvents jobID event with
    | .error _ => st
    | .ok _ => { st with events := st.events ++ [(jobID, event)] }

/-- S3JobProcessor.ProcessJob: run ProcessSingleJob, then publish the
COMPLETED or FAILED lifecycle notification according to its outcome (the
notification goroutine is sequenced after the call in this model). -/
def processJob (env : ProcEnv) (uploadDir jobID : String) (st : SysState) :
    SysState × Except String Unit :=
  match processSingleJob env uploadDir jobID st with
  | (st1, r) =>
    let event := match r with | .ok _ => "COMPLETED" | .error _ => "FAILED"
    (publishNotifications env jobID event st1, r)

/-- Modelled from the spec: the worker loop of the task queue is not under
src/.  Per the spec, "on any processor error, the job is marked Failed and
the error is logged — the worker does not crash". -/
def workerStep (env : ProcEnv) (uploadDir jobID : String) (st : SysState) : SysState :=
  match processJob env uploadDir jobID st with
  | (st1, .ok _) => st1
  | (st1, .error _) =>
    match findByID st1.repo jobID with
    | none => st1
    | some j => stUpdate st1 { j with status := JobStatus.failed }

/-! ## Audio-serving wrapper (unnamed/part_000, GetAudioFileWrapper) -/

/-- A response written by a handler: an error body, the S3-submission
success body (whose job_id field is the Go boolean literal true), or the
AWS-submission success body. -/
inductive RespBody
  | err (msg : String)
  | s3Success (jobIdField : Bool)
  | awsSuccess (jobID : String) (jobName : Option String)
      (profileName : String) (outBucket : Option String)
deriving DecidableEq, Repr

/-- Whether a response body carries the given job identifier. -/
def respContainsJobID (b : RespBody) (jobID : String) : Bool :=
  match b with
  | .awsSuccess j _ _ _ => j == jobID
  | _ => false

/-- Handler.GetAudioFileWrapper, resolution portion: for an s3:// audio
reference, derive uploadDir/Base(uri); download only when no local file
exists at that path (os.Stat check), then persist the resolved audio path.
An empty response list means the wrapped audio-serving handler runs. -/
def getAudioFileResolve (env : ProcEnv) (now : Int) (uploadDir jobID : String)
    (st : SysState) : SysState × List (Nat × RespBody) :=
  match findByID st.repo jobID with
  | none => (st, [(404, RespBody.err "Job not found")])
  | some job =>
    match job.audioUri with
    | none => (st, [])
    | some uri =>
      if listStartsWith uri.data s3SchemeChars then
        let audioPath := filepathJoin uploadDir (filepathBase uri)
        let dl : SysState × Except String Unit :=
          if st.fs.contains audioPath then (st, Except.ok ())
          else downloadFile env now uri audioPath st
        match dl with
        | (st1, .error _) => (st1, [(500, RespBody.err "Failed to download audio")])
        | (st1, .ok _) => (stUpdate st1 { job with audioPath := audioPath }, [])
      else (st, [])

/-! ## Submission handlers (unnamed/part_000 and internal/api/aws_handler.go) -/

/-- Outcomes of the handler's collaborators: the default-profile lookup,
jobRepo.Create, and taskQueue.EnqueueJob. -/
structure HandlerEnv where
  profile : Option TranscriptionProfile
  createOk : Bool
  enqueueOk : Bool
deriving Repr

/-- api.S3TranscriptionRequest. -/
structure S3TranscriptionRequest where
  uri : String
  outputBucket : Option String
deriving DecidableEq, Repr

/-- Handler.SubmitS3Transcription.  `none` for the request models a JSON
bind failure.  The 400 written for an empty URI is NOT followed by a
return in the source, so the handler falls through and keeps executing. -/
def submitS3Transcription (henv : HandlerEnv) (newID : String)
    (req? : Option S3TranscriptionRequest) (st : SysState) :
    SysState × List (Nat × RespBody) :=
  match req? with
  | none => (st, [(400, RespBody.err "Invalid request data")])
  | some req =>
    let rs0 : List (Nat × RespBody) :=
      if req.uri = "" then [(400, RespBody.err "URI is required")] else []
    match henv.profile with
    | none => (st, rs0 ++ [(500, RespBody.err "Failed to create job. Default profile not found.")])
    | some profile =>
      let job : TranscriptionJob :=
        { id := newID
          audioPath := req.uri
          audioUri := some req.uri
          outputBucket := req.outputBucket
          outputBucketName := none
          title := none
          tags := none
          transcript := none
          parameters := profile.parameters
          diarization := profile.parameters.diarize
          status := JobStatus.pending }
      if henv.createOk then
        let st1 := stCreate st job
        if henv.enqueueOk then
          ({ st1 with queue := st1.queue ++ [job.id] },
           rs0 ++ [(200, RespBody.s3Success true)])
        else
          (stUpdate st1 { job with status := JobStatus.uploaded },
           rs0 ++ [(200, RespBody.s3Success true)])
      else (st, rs0 ++ [(500, RespBody.err "Failed to create job")])

/-- transcribe.Media: a pointer field holding a pointer field. -/
structure MediaInput where
  mediaFileUri : Option String
deriving DecidableEq, Repr

/-- transcribe.StartTranscriptionJobInput, restricted to the fields the
handler reads.  `media = none` models a nil Media pointer; an inner
`none` models a nil MediaFileUri pointer. -/
structure AWSTranscribeRequest where
  media : Option MediaInput
  languageCode : String
  transcriptionJobName : Option String
  outputBucketName : Option String
  tags : List (String × String)
deriving DecidableEq, Repr

/-- json.Marshal of the request's tag list (content is opaque to every
claim; braces written as escapes). -/
def tagsJSON (tags : List (String × String)) : String :=
  "[" ++ String.intercalate ","
    (tags.map (fun t => "\x7b\"Key\":\"" ++ t.1 ++ "\",\"Value\":\"" ++ t.2 ++ "\"\x7d")) ++ "]"

/-- strings.Split(languageCode, "-")[0]. -/
def shortLanguageCode (lc : String) : String :=
  match splitOnChar lc.data '-' with
  | [] => ""
  | p :: _ => String.mk p

/-- Result of running the AWS submission handler: either a normal finish
with the final state and the responses written, or a nil-pointer panic
(the responses written before the panic are kept). -/
inductive AWSOutcome
  | ok (st : SysState) (resps : List (Nat × RespBody))
  | panicked (resps : List (Nat × RespBody))
deriving DecidableEq, Repr

/-- Handler.SubmitAWSTranscribeJob.  The 400 written for a nil Media or
nil MediaFileUri is NOT followed by a return in the source; execution
continues and, once the profile lookup succeeds, dereferences
req.Media.MediaFileUri — a nil-pointer panic for those requests. -/
def submitAWSTranscribeJob (henv : HandlerEnv) (newID : String)
    (req? : Option AWSTranscribeRequest) (st : SysState) : AWSOutcome :=
  match req? with
  | none => .ok st [(400, RespBody.err "Invalid request data")]
  | some req =>
    let rs0 : List (Nat × RespBody) :=
      match req.media with
      | none => [(400, RespBody.err "Media.MediaFileUri is required")]
      | some m =>
        match m.mediaFileUri with
        | none => [(400, RespBody.err "Media.MediaFileUri is required")]
        | some _ => []
    match henv.profile with
    | none => .ok st (rs0 ++ [(500, RespBody.err "Failed to create job. Default profile not found.")])
    | some profile =>
      match req.media with
      | none => .panicked rs0
      | some m =>
        match m.mediaFileUri with
        | none => .panicked rs0
        | some mediaURI =>
          let params0 := profile.parameters
          let params1 :=
            if req.languageCode ≠ "" then
              { params0 with language := some (shortLanguageCode req.languageCode) }
            else params0
          let params2 := { params1 with diarize := true }
          let tags : Option String :=
            if req.tags.length > 0 then some (tagsJSON req.tags) else none
          let job : TranscriptionJob :=
            { id := newID
              audioPath := mediaURI
              audioUri := some mediaURI
              outputBucket := none
              outputBucketName := req.outputBucketName
              title := req.transcriptionJobName
              tags := tags
              transcript := none
              parameters := params2
              diarization := params2.diarize
              status := JobStatus.pending }
          if henv.createOk then
            let st1 := stCreate st job
            let st2 :=
              if henv.enqueueOk then { st1 with queue := st1.queue ++ [job.id] }
              else stUpdate st1 { job with status := JobStatus.uploaded }
            .ok st2 (rs0 ++ [(200, RespBody.awsSuccess job.id job.title profile.name
                                     job.outputBucketName)])
          else .ok st (rs0 ++ [(500, RespBody.err "Failed to create job")])

/-! ## Backend result parsing (runpod_adapter.go / modal_adapter.go) -/

/-- One segment of a WhisperX backend result (times and scores are carried
opaquely; the parser only copies them). -/
structure WhisperxSegment where
  start : Int
  stop : Int
  text : String
  speaker : Option String
deriving DecidableEq, Repr

/-- One word token of a WhisperX backend result. -/
structure WhisperxWord where
  start : Int
  stop : Int
  word : String
  score : Int
  speaker : Option String
deriving DecidableEq, Repr

/-- adapters.WhisperxResult: the raw backend payload. -/
structure WhisperxResult where
  segments : List WhisperxSegment
  word : List WhisperxWord
  language : String
  text : String
deriving DecidableEq, Repr

/-- interfaces.TranscriptSegment of the canonical result. -/
structure TranscriptSegment where
  start : Int
  stop : Int
  text : String
  speaker : Option String
deriving DecidableEq, Repr

/-- interfaces.TranscriptWord of the canonical result. -/
structure TranscriptWord where
  start : Int
  stop : Int
  word : String
  score : Int
  speaker : Option String
deriving DecidableEq, Repr

/-- interfaces.TranscriptResult, restricted to the fields parseResult
populates. -/
structure TranscriptResult where
  language : String
  segments : List TranscriptSegment
  wordSegments : List TranscriptWord
  confidence : Int
  text : String
deriving DecidableEq, Repr

/-- The conversion shared verbatim by RunPodAdapter.parseResult and
ModalAdapter.parseResult: copy segments and words in order, and set the
full text to the backend's aggregate text when non-empty, otherwise to
the segment texts joined by a single space in segment order. -/
def parseWhisperxResult (w : WhisperxResult) : TranscriptResult :=
  let segs := w.segments.map (fun s =>
    { start := s.start, stop := s.stop, text := s.text,
      speaker := s.speaker : TranscriptSegment })
  let words := w.word.map (fun x =>
    { start := x.start, stop := x.stop, word := x.word, score := x.score,
      speaker := x.speaker : TranscriptWord })
  let textParts := w.segments.map (·.text)
  { language := w.language
    segments := segs
    wordSegments := words
    confidence := 0
    text := if w.text ≠ "" then w.text else String.intercalate " " textParts }

/-! ## Status-transition edges -/

/-- The transition edges the specification claims:
Pending→Processing, Processing→Completed, Processing→Failed, and
Pending→Uploaded. -/
def isClaimedEdge : JobStatus → JobStatus → Bool
  | .pending, .processing => true
  | .processing, .completed => true
  | .processing, .failed => true
  | .pending, .uploaded => true
  | _, _ => false

/-- The edges the code actually produces: the claimed edges plus
Completed→Failed, taken when the post-completion transcript upload fails
and the worker marks the already-Completed job Failed. -/
def isActualEdge (a b : JobStatus) : Bool :=
  isClaimedEdge a b || (a == JobStatus.completed && b == JobStatus.failed)

/-- Whether every recorded status write in the log is either a self-write
(no status change) or follows the given edge relation. -/
def writesFollow (edges : JobStatus → JobStatus → Bool)
    (l : List (String × JobStatus × JobStatus)) : Bool :=
  l.all (fun w => (w.2.1 == w.2.2) || edges w.2.1 w.2.2)

/-- The responses written by an AWS-handler run, panic or not. -/
def awsResponses : AWSOutcome → List (Nat × RespBody)
  | .ok _ resps => resps
  | .panicked resps => resps

/-- The final state of a normally-finishing AWS-handler run (the fallback
is returned for a panicked run). -/
def awsFinalState (o : AWSOutcome) (fallback : SysState) : SysState :=
  match o with
  | .ok st _ => st
  | .panicked _ => fallback

/-! ## Concrete scenario fixtures -/

/-- A fixed transcription profile for concrete scenarios. -/
def profileX : TranscriptionProfile :=
  { name := "default", parameters := { diarize := false, language := none } }

/-- The initial empty system state. -/
def emptySt : SysState :=
  { repo := [], queue := [], fs := [], cache := [], fetches := 0, events := [], writes := [] }

/-- Collaborator outcomes where the S3 fetch fails. -/
def envC1 : ProcEnv :=
  { getObject := fun _ _ => Except.error "network down"
    putObject := fun _ _ => Except.ok ()
    putEvents := fun _ _ => Except.ok ()
    httpGet := fun _ => Except.ok 200
    unified := fun _ => Except.ok "text" }

/-- A pending S3 job. -/
def jobC1 : TranscriptionJob :=
  { id := "job-c1", audioPath := "s3://bkt/clip1.mp3", audioUri := some "s3://bkt/clip1.mp3",
    outputBucket := none, outputBucketName := none, title := none, tags := none,
    transcript := none, parameters := { diarize := false, language := none },
    diarization := false, status := JobStatus.pending }

/-- State holding only jobC1. -/
def stC1 : SysState := { emptySt with repo := [jobC1] }

/-- Collaborator outcomes where every external call succeeds. -/
def envC2 : ProcEnv :=
  { getObject := fun _ _ => Except.ok ()
    putObject := fun _ _ => Except.ok ()
    putEvents := fun _ _ => Except.ok ()
    httpGet := fun _ => Except.ok 200
    unified := fun _ => Except.ok "text" }

/-- A pending S3 job whose derived local path may already exist. -/
def jobC2 : TranscriptionJob :=
  { id := "job-c2", audioPath := "s3://bkt/clip2.mp3", audioUri := some "s3://bkt/clip2.mp3",
    outputBucket := none, outputBucketName := none, title := none, tags := none,
    transcript := none, parameters := { diarize := false, language := none },
    diarization := false, status := JobStatus.pending }

/-- State where jobC2's derived local file already exists on disk. -/
def stC2 : SysState := { emptySt with repo := [jobC2], fs := ["uploads/clip2.mp3"] }

/-- State holding jobC2 with an empty local filesystem. -/
def stC2w : SysState := { emptySt with repo := [jobC2] }

/-- Collaborator outcomes where only the transcript upload (PutObject)
fails. -/
def envC3 : ProcEnv :=
  { getObject := fun _ _ => Except.ok ()
    putObject := fun _ _ => Except.error "put-denied"
    putEvents := fun _ _ => Except.ok ()
    httpGet := fun _ => Except.ok 200
    unified := fun _ => Except.ok "text" }

/-- The same outcomes as envC3 with the transcript upload succeeding. -/
def envC3ok : ProcEnv :=
  { getObject := fun _ _ => Except.ok ()
    putObject := fun _ _ => Except.ok ()
    putEvents := fun _ _ => Except.ok ()
    httpGet := fun _ => Except.ok 200
    unified := fun _ => Except.ok "text" }

/-- Collaborator outcomes where the EventBridge publication fails. -/
def envEvFail : ProcEnv :=
  { getObject := fun _ _ => Except.ok ()
    putObject := fun _ _ => Except.ok ()
    putEvents := fun _ _ => Except.error "bus down"
    httpGet := fun _ => Except.ok 200
    unified := fun _ => Except.ok "text" }

/-- A pending S3 job with an output bucket configured. -/
def jobC3 : TranscriptionJob :=
  { id := "job-c3", audioPath := "s3://bkt/clip3.mp3", audioUri := some "s3://bkt/clip3.mp3",
    outputBucket := none, outputBucketName := some "outbkt", title := none, tags := none,
    transcript := none, parameters := { diarize := false, language := none },
    diarization := false, status := JobStatus.pending }

/-- State holding only jobC3. -/
def stC3 : SysState := { emptySt with repo := [jobC3] }

/-- Collaborator outcomes where only the transcript upload fails (second
concrete copy for the transition-graph scenario). -/
def envC4 : ProcEnv :=
  { getObject := fun _ _ => Except.ok ()
    putObject := fun _ _ => Except.error "denied"
    putEvents := fun _ _ => Except.ok ()
    httpGet := fun _ => Except.ok 200
    unified := fun _ => Except.ok "words" }

/-- A pending S3 job with an output bucket configured (transition-graph
scenario). -/
def jobC4 : TranscriptionJob :=
  { id := "job-c4", audioPath := "s3://bkt/clip4.mp3", audioUri := some "s3://bkt/clip4.mp3",
    outputBucket := none, outputBucketName := some "out4", title := none, tags := none,
    transcript := none, parameters := { diarize := false, language := none },
    diarization := false, status := JobStatus.pending }

/-- State holding only jobC4. -/
def stC4 : SysState := { emptySt with repo := [jobC4] }

/-- Handler collaborators where everything succeeds. -/
def henvOk : HandlerEnv := { profile := some profileX, createOk := true, enqueueOk := true }

/-- Handler collaborators where only EnqueueJob fails. -/
def henvNoQueue : HandlerEnv := { profile := some profileX, createOk := true, enqueueOk := false }

/-- A well-formed S3 submission request. -/
def reqC8 : S3TranscriptionRequest := { uri := "s3://bkt/a8.mp3", outputBucket := none }

/-- A well-formed AWS submission request. -/
def reqAC8 : AWSTranscribeRequest :=
  { media := some { mediaFileUri := some "s3://bkt/a8.mp3" }, languageCode := "en-US",
    transcriptionJobName := some "job-name-8", outputBucketName := some "out8", tags := [] }

/-- An AWS submission request with a nil Media pointer. -/
def reqC9 : AWSTranscribeRequest :=
  { media := none, languageCode := "", transcriptionJobName := none,
    outputBucketName := none, tags := [] }

/-- An S3 submission request with an empty URI. -/
def reqC10 : S3TranscriptionRequest := { uri := "", outputBucket := none }

/-- An S3 submission request for the enqueue-failure scenario. -/
def reqC5 : S3TranscriptionRequest := { uri := "s3://bkt/a5.mp3", outputBucket := none }

/-- A non-nil media input for the enqueue-failure scenario. -/
def mC5 : MediaInput := { mediaFileUri := some "s3://bkt/a5.mp3" }

/-- An AWS submission request for the enqueue-failure scenario. -/
def reqAC5 : AWSTranscribeRequest :=
  { media := some mC5, languageCode := "", transcriptionJobName := none,
    outputBucketName := none, tags := [] }

/-- A backend payload with no aggregate text and two segments. -/
def wC6 : WhisperxResult :=
  { segments := [{ start := 0, stop := 5, text := "hello", speaker := none },
                 { start := 5, stop := 9, text := "world", speaker := none }],
    word := [], language := "en", text := "" }

/-- A backend payload carrying a non-empty aggregate text. -/
def wC6b : WhisperxResult :=
  { segments := [{ start := 0, stop := 5, text := "hello", speaker := none }],
    word := [], language := "en", text := "aggregate" }

/-- A cache state with one stale and one young downloaded file. -/
def stC7 : SysState :=
  { emptySt with fs := ["old-file", "young-file"],
                 cache := [("old-file", 0), ("young-file", 15000)] }

/-- An S3 submission request for the transition-graph scenario. -/
def reqW4s : S3TranscriptionRequest := { uri := "s3://bkt/w4.mp3", outputBucket := none }

/-- A non-nil media input for the transition-graph scenario. -/
def mW4 : MediaInput := { mediaFileUri := some "s3://bkt/w4.mp3" }

/-- An AWS submission request for the transition-graph scenario. -/
def reqW4 : AWSTranscribeRequest :=
  { media := some mW4, languageCode := "en-US", transcriptionJobName := none,
    outputBucketName := none, tags := [] }

/-! ## Helper lemmas -/

theorem findByID_singleton (job : TranscriptionJob) :
    findByID [job] job.id = some job := by
  simp [findByID, List.find?]

theorem repoUpdate_singleton (job job' : TranscriptionJob) (h : job'.id = job.id) :
    repoUpdate [job] job' = [job'] := by
  simp [repoUpdate, h]

theorem stUpdate_singleton (st : SysState) (job job' : TranscriptionJob)
    (hrepo : st.repo = [job]) (hid : job'.id = job.id) :
    stUpdate st job' =
      { st with repo := [job'],
                writes := st.writes ++ [(job'.id, job.status, job'.status)] } := by
  have h1 : findByID [job] job'.id = some job := by
    rw [hid]; exact findByID_singleton job
  simp [stUpdate, hrepo, h1, repoUpdate_singleton job job' hid]

theorem publishNotifications_repo (env : ProcEnv) (j e : String) (st : SysState) :
    (publishNotifications env j e st).repo = st.repo := by
  unfold publishNotifications
  split
  · rfl
  · split <;> rfl

theorem publishNotifications_writes (env : ProcEnv) (j e : String) (st : SysState) :
    (publishNotifications env j e st).writes = st.writes := by
  unfold publishNotifications
  split
  · rfl
  · split <;> rfl

theorem writesFollow_append (edges : JobStatus → JobStatus → Bool)
    (l1 l2 : List (String × JobStatus × JobStatus)) :
    writesFollow edges (l1 ++ l2) = (writesFollow edges l1 && writesFollow edges l2) := by
  simp [writesFollow, List.all_append]

theorem processTail_eq_error (env : ProcEnv) (jobID : String) (isS3 : Bool)
    (st : SysState) (j : TranscriptionJob) (e : String)
    (hfind : findByID st.repo jobID = some j) (hun : env.unified jobID = Except.error e) :
    processTail env jobID isS3 st =
      (stUpdate st { j with status := JobStatus.failed }, Except.error e) := by
  unfold processTail unifiedProcess
  rw [hfind, hun]

theorem processTail_eq_ok_noS3 (env : ProcEnv) (jobID : String)
    (st : SysState) (j : TranscriptionJob) (t : String)
    (hfind : findByID st.repo jobID = some j) (hun : env.unified jobID = Except.ok t) :
    processTail env jobID false st =
      (stUpdate st { j with status := JobStatus.completed, transcript := some t },
       Except.ok ()) := by
  unfold processTail unifiedProcess
  rw [hfind, hun]
  rfl

theorem processTail_eq_ok_S3 (env : ProcEnv) (jobID : String)
    (st : SysState) (j pj : TranscriptionJob) (t : String)
    (hfind : findByID st.repo jobID = some j) (hun : env.unified jobID = Except.ok t)
    (hfind2 : findByID
        (stUpdate st { j with status := JobStatus.completed, transcript := some t }).repo
        jobID = some pj) :
    processTail env jobID true st =
      (stUpdate st { j with status := JobStatus.completed, transcript := some t },
       uploadToS3 env pj) := by
  unfold processTail unifiedProcess
  rw [hfind, hun]
  show (if !true then _ else _) = _
  rw [Bool.not_true, if_neg (by simp)]
  rw [hfind2]

theorem processSingleJob_eq_noUri (env : ProcEnv) (uploadDir jobID : String)
    (st : SysState) (job : TranscriptionJob)
    (hfind : findByID st.repo jobID = some job) (hpend : job.status = JobStatus.pending)
    (hau : job.audioUri = none) :
    processSingleJob env uploadDir jobID st =
      processTail env jobID false (stUpdate st { job with status := JobStatus.processing }) := by
  unfold processSingleJob
  rw [hfind]
  dsimp only
  rw [hpend, if_pos rfl]
  dsimp only
  rw [hau]

theorem processSingleJob_eq_notS3 (env : ProcEnv) (uploadDir jobID : String)
    (st : SysState) (job : TranscriptionJob) (uri : String)
    (hfind : findByID st.repo jobID = some job) (hpend : job.status = JobStatus.pending)
    (hau : job.audioUri = some uri)
    (hls : listStartsWith uri.data s3SchemeChars = false) :
    processSingleJob env uploadDir jobID st =
      processTail env jobID false (stUpdate st { job with status := JobStatus.processing }) := by
  unfold processSingleJob
  rw [hfind]
  dsimp only
  rw [hpend, if_pos rfl]
  dsimp only
  rw [hau]
  dsimp only
  rw [hls]
  rfl

theorem processSingleJob_eq_s3_dlfail (env : ProcEnv) (uploadDir jobID : String)
    (st st2 : SysState) (job : TranscriptionJob) (uri e : String)
    (hfind : findByID st.repo jobID = some job) (hpend : job.status = JobStatus.pending)
    (hau : job.audioUri = some uri)
    (hls : listStartsWith uri.data s3SchemeChars = true)
    (hdl : procDownloadS3File env uri (filepathJoin uploadDir (filepathBase uri))
        (stUpdate st { job with audioUri := some uri, status := JobStatus.processing }) = (st2, Except.error e)) :
    processSingleJob env uploadDir jobID st = (st2, Except.error e) := by
  unfold processSingleJob
  rw [hfind]
  dsimp only
  rw [hpend, if_pos rfl]
  dsimp only
  rw [hau]
  dsimp only
  rw [hls]
  rw [if_pos rfl]
  rw [hdl]

theorem processSingleJob_eq_s3_dlok (env : ProcEnv) (uploadDir jobID : String)
    (st st2 : SysState) (job : TranscriptionJob) (uri : String)
    (hfind : findByID st.repo jobID = some job) (hpend : job.status = JobStatus.pending)
    (hau : job.audioUri = some uri)
    (hls : listStartsWith uri.data s3SchemeChars = true)
    (hdl : procDownloadS3File env uri (filepathJoin uploadDir (filepathBase uri))
        (stUpdate st { job with audioUri := some uri, status := JobStatus.processing }) = (st2, Except.ok ())) :
    processSingleJob env uploadDir jobID st =
      processTail env jobID true
        (stUpdate st2 { job with audioPath := filepathJoin uploadDir (filepathBase uri), audioUri := some uri, status := JobStatus.processing }) := by
  unfold processSingleJob
  rw [hfind]
  dsimp only
  rw [hpend, if_pos rfl]
  dsimp only
  rw [hau]
  dsimp only
  rw [hls]
  rw [if_pos rfl]
  rw [hdl]

theorem procDownloadS3File_repo (env : ProcEnv) (uri saveTo : String) (st : SysState) :
    (procDownloadS3File env uri saveTo st).1.repo = st.repo := by
  unfold procDownloadS3File
  split
  · split
    · rfl
    · split <;> rfl
  · rfl

theorem procDownloadS3File_writes (env : ProcEnv) (uri saveTo : String) (st : SysState) :
    (procDownloadS3File env uri saveTo st).1.writes = st.writes := by
  unfold procDownloadS3File
  split
  · split
    · rfl
    · split <;> rfl
  · rfl

theorem processTail_edges (env : ProcEnv) (jobID : String) (isS3 : Bool)
    (st : SysState) (j : TranscriptionJob)
    (hrepo : st.repo = [j]) (hid : j.id = jobID) (hstat : j.status = JobStatus.processing) :
    ∃ j' ws, (processTail env jobID isS3 st).1.repo = [j'] ∧ j'.id = jobID ∧
      (processTail env jobID isS3 st).1.writes = st.writes ++ ws ∧
      writesFollow isActualEdge ws = true ∧
      (j'.status = JobStatus.completed ∨ j'.status = JobStatus.failed) := by
  have hfind : findByID st.repo jobID = some j := by
    rw [hrepo, ← hid]; exact findByID_singleton j
  rcases hun : env.unified jobID with e | t
  · rw [processTail_eq_error env jobID isS3 st j e hfind hun]
    have hup := stUpdate_singleton st j { j with status := JobStatus.failed } hrepo rfl
    exact ⟨{ j with status := JobStatus.failed }, [(j.id, j.status, JobStatus.failed)],
      by rw [hup], hid, by rw [hup], by simp [writesFollow, isActualEdge, isClaimedEdge, hstat],
      Or.inr rfl⟩
  · have hup := stUpdate_singleton st j
      { j with status := JobStatus.completed, transcript := some t } hrepo rfl
    cases isS3 with
    | false =>
      rw [processTail_eq_ok_noS3 env jobID st j t hfind hun]
      exact ⟨{ j with status := JobStatus.completed, transcript := some t },
        [(j.id, j.status, JobStatus.completed)],
        by rw [hup], hid, by rw [hup],
        by simp [writesFollow, isActualEdge, isClaimedEdge, hstat], Or.inl rfl⟩
    | true =>
      have hfind2 : findByID
          (stUpdate st { j with status := JobStatus.completed, transcript := some t }).repo
          jobID = some { j with status := JobStatus.completed, transcript := some t } := by
        rw [hup]
        show findByID [_] jobID = _
        rw [← hid]
        exact findByID_singleton _
      rw [processTail_eq_ok_S3 env jobID st j _ t hfind hun hfind2]
      exact ⟨{ j with status := JobStatus.completed, transcript := some t },
        [(j.id, j.status, JobStatus.completed)],
        by rw [hup], hid, by rw [hup],
        by simp [writesFollow, isActualEdge, isClaimedEdge, hstat], Or.inl rfl⟩

theorem processSingleJob_edges (env : ProcEnv) (uploadDir : String)
    (job : TranscriptionJob) (st : SysState)
    (hrepo : st.repo = [job]) (hpend : job.status = JobStatus.pending) :
    ∃ j' ws, (processSingleJob env uploadDir job.id st).1.repo = [j'] ∧ j'.id = job.id ∧
      (processSingleJob env uploadDir job.id st).1.writes = st.writes ++ ws ∧
      writesFollow isActualEdge ws = true ∧
      (j'.status = JobStatus.processing ∨ j'.status = JobStatus.completed ∨
        j'.status = JobStatus.failed) := by
  have hfind : findByID st.repo job.id = some job := by
    rw [hrepo]; exact findByID_singleton job
  rcases hau : job.audioUri with _ | uri
  · -- no audio URI
    have hup := stUpdate_singleton st job { job with status := JobStatus.processing } hrepo rfl
    rw [processSingleJob_eq_noUri env uploadDir job.id st job hfind hpend hau]
    obtain ⟨j', ws, h1, h2, h3, h4, h5⟩ := processTail_edges env job.id false
      (stUpdate st { job with status := JobStatus.processing })
      { job with status := JobStatus.processing } (by rw [hup]) rfl rfl
    refine ⟨j', (job.id, JobStatus.pending, JobStatus.processing) :: ws, h1, h2, ?_, ?_,
      Or.inr h5⟩
    · rw [h3, hup]
      simp [hpend]
    · simp [writesFollow, isActualEdge, isClaimedEdge] at h4 ⊢
      exact h4
  · rcases hls : listStartsWith uri.data s3SchemeChars with _ | _
    · -- not an s3 reference
      have hup := stUpdate_singleton st job { job with status := JobStatus.processing } hrepo rfl
      rw [processSingleJob_eq_notS3 env uploadDir job.id st job uri hfind hpend hau hls]
      obtain ⟨j', ws, h1, h2, h3, h4, h5⟩ := processTail_edges env job.id false
        (stUpdate st { job with status := JobStatus.processing })
        { job with status := JobStatus.processing } (by rw [hup]) rfl rfl
      refine ⟨j', (job.id, JobStatus.pending, JobStatus.processing) :: ws, h1, h2, ?_, ?_,
        Or.inr h5⟩
      · rw [h3, hup]
        simp [hpend]
      · simp [writesFollow, isActualEdge, isClaimedEdge] at h4 ⊢
        exact h4
    · -- s3 reference: unconditional download
      have hup := stUpdate_singleton st job
        { job with audioUri := some uri, status := JobStatus.processing } hrepo rfl
      rcases hdl : procDownloadS3File env uri (filepathJoin uploadDir (filepathBase uri))
          (stUpdate st { job with audioUri := some uri, status := JobStatus.processing })
          with ⟨st2, r⟩
      have hrepo2 : st2.repo = [{ job with audioUri := some uri, status := JobStatus.processing }] := by
        have := procDownloadS3File_repo env uri (filepathJoin uploadDir (filepathBase uri))
          (stUpdate st { job with audioUri := some uri, status := JobStatus.processing })
        rw [hdl] at this
        rw [this, hup]
      have hwrites2 : st2.writes = st.writes ++ [(job.id, JobStatus.pending, JobStatus.processing)] := by
        have := procDownloadS3File_writes env uri (filepathJoin uploadDir (filepathBase uri))
          (stUpdate st { job with audioUri := some uri, status := JobStatus.processing })
        rw [hdl] at this
        rw [this, hup]
        simp [hpend]
      rcases r with e | u
      · -- download failed
        rw [processSingleJob_eq_s3_dlfail env uploadDir job.id st st2 job uri e hfind hpend hau hls hdl]
        exact ⟨{ job with audioUri := some uri, status := JobStatus.processing },
          [(job.id, JobStatus.pending, JobStatus.processing)], hrepo2, rfl, hwrites2,
          by simp [writesFollow, isActualEdge, isClaimedEdge], Or.inl rfl⟩
      · -- download succeeded
        rw [processSingleJob_eq_s3_dlok env uploadDir job.id st st2 job uri hfind hpend hau hls hdl]
        have hup2 := stUpdate_singleton st2
          { job with audioUri := some uri, status := JobStatus.processing }
          { job with audioPath := filepathJoin uploadDir (filepathBase uri),
                     audioUri := some uri, status := JobStatus.processing } hrepo2 rfl
        obtain ⟨j', ws, h1, h2, h3, h4, h5⟩ := processTail_edges env job.id true
          (stUpdate st2 { job with audioPath := filepathJoin uploadDir (filepathBase uri), audioUri := some uri, status := JobStatus.processing })
          { job with audioPath := filepathJoin uploadDir (filepathBase uri), audioUri := some uri, status := JobStatus.processing }
          (by rw [hup2]) rfl rfl
        refine ⟨j', (job.id, JobStatus.pending, JobStatus.processing) ::
          (job.id, JobStatus.processing, JobStatus.processing) :: ws, h1, h2, ?_, ?_, Or.inr h5⟩
        · rw [h3, hup2, hwrites2]
          simp
        · simp [writesFollow, isActualEdge, isClaimedEdge] at h4 ⊢
          exact h4

theorem findByID_append_fresh (repo : List TranscriptionJob) (job : TranscriptionJob)
    (jid : String) (hid : job.id = jid) (h : findByID repo jid = none) :
    findByID (repo ++ [job]) jid = some job := by
  unfold findByID at h ⊢
  induction repo with
  | nil => simp [List.find?, hid]
  | cons a l ih =>
    rw [List.find?_cons] at h
    rw [List.cons_append, List.find?_cons]
    cases hb : a.id == jid with
    | true => rw [hb] at h; exact absurd h (by simp)
    | false =>
      rw [hb] at h
      exact ih h

theorem worker_edges (env : ProcEnv) (uploadDir : String)
    (job : TranscriptionJob) (st : SysState)
    (hrepo : st.repo = [job]) (hpend : job.status = JobStatus.pending)
    (hw : st.writes = []) :
    writesFollow isActualEdge (workerStep env uploadDir job.id st).writes = true := by
  obtain ⟨j', ws, h1, h2, h3, h4, h5⟩ := processSingleJob_edges env uploadDir job st hrepo hpend
  unfold workerStep processJob
  rcases hps : processSingleJob env uploadDir job.id st with ⟨st1, r⟩
  rw [hps] at h1 h3
  rw [hw] at h3
  rcases r with e | u
  · -- processing error: the worker marks the job Failed
    dsimp only
    have hpr := publishNotifications_repo env job.id "FAILED" st1
    have hpw := publishNotifications_writes env job.id "FAILED" st1
    have hfind1 : findByID (publishNotifications env job.id "FAILED" st1).repo job.id
        = some j' := by
      rw [hpr, h1, ← h2]
      exact findByID_singleton j'
    rw [hfind1]
    dsimp only
    have hup := stUpdate_singleton (publishNotifications env job.id "FAILED" st1) j'
      { j' with status := JobStatus.failed } (by rw [hpr, h1]) rfl
    rw [hup]
    show writesFollow isActualEdge
      ((publishNotifications env job.id "FAILED" st1).writes ++ _) = true
    rw [hpw, h3, List.nil_append, writesFollow_append, h4]
    rcases h5 with h5 | h5 | h5 <;>
      simp [writesFollow, isActualEdge, isClaimedEdge, h5]
  · -- processing succeeded: no further write
    dsimp only
    rw [publishNotifications_writes, h3, List.nil_append]
    exact h4

theorem submitS3_edges (henv : HandlerEnv) (newID : String)
    (req? : Option S3TranscriptionRequest) (st : SysState)
    (hfresh : findByID st.repo newID = none) (hw : st.writes = []) :
    writesFollow isActualEdge (submitS3Transcription henv newID req? st).1.writes = true := by
  rcases req? with _ | req
  · simp [submitS3Transcription, hw, writesFollow]
  · rcases hp : henv.profile with _ | profile
    · simp [submitS3Transcription, hp, hw, writesFollow]
    · cases hc : henv.createOk with
      | false => simp [submitS3Transcription, hp, hc, hw, writesFollow]
      | true =>
        cases he : henv.enqueueOk with
        | true => simp [submitS3Transcription, hp, hc, he, stCreate, hw, writesFollow]
        | false =>
          have hfind := findByID_append_fresh st.repo
            ({ id := newID, audioPath := req.uri, audioUri := some req.uri,
               outputBucket := req.outputBucket, outputBucketName := none,
               title := none, tags := none, transcript := none,
               parameters := profile.parameters,
               diarization := profile.parameters.diarize,
               status := JobStatus.pending } : TranscriptionJob) newID rfl hfresh
          simp [submitS3Transcription, hp, hc, he, stUpdate, stCreate, hfind, hw,
            writesFollow, isActualEdge, isClaimedEdge]

theorem pending_to_uploaded_write (st : SysState) (jobR : TranscriptionJob)
    (hfresh : findByID st.repo jobR.id = none) (hw : st.writes = [])
    (hst : jobR.status = JobStatus.pending) :
    writesFollow isActualEdge
      (stUpdate (stCreate st jobR) { jobR with status := JobStatus.uploaded }).writes
      = true := by
  have hfind : findByID (st.repo ++ [jobR]) jobR.id = some jobR :=
    findByID_append_fresh st.repo jobR jobR.id rfl hfresh
  simp [stUpdate, stCreate, hfind, hw, writesFollow, isActualEdge, isClaimedEdge, hst]

theorem submitAWS_edges (henv : HandlerEnv) (newID : String)
    (req? : Option AWSTranscribeRequest) (st st' : SysState) (resps : List (Nat × RespBody))
    (hfresh : findByID st.repo newID = none) (hw : st.writes = [])
    (hout : submitAWSTranscribeJob henv newID req? st = AWSOutcome.ok st' resps) :
    writesFollow isActualEdge st'.writes = true := by
  rcases req? with _ | req
  · unfold submitAWSTranscribeJob at hout
    cases hout
    simp [hw, writesFollow]
  · unfold submitAWSTranscribeJob at hout
    cases hp : henv.profile with
    | none =>
      rw [hp] at hout
      dsimp only at hout
      cases hout
      simp [hw, writesFollow]
    | some profile =>
      rw [hp] at hout
      dsimp only at hout
      cases hm : req.media with
      | none =>
        rw [hm] at hout
        dsimp only at hout
        exact absurd hout (by simp)
      | some m =>
        rw [hm] at hout
        dsimp only at hout
        cases hmf : m.mediaFileUri with
        | none =>
          rw [hmf] at hout
          dsimp only at hout
          exact absurd hout (by simp)
        | some uri =>
          rw [hmf] at hout
          dsimp only at hout
          cases hc : henv.createOk with
          | false =>
            rw [hc] at hout
            simp only [Bool.false_eq_true, if_false] at hout
            cases hout
            simp [hw, writesFollow]
          | true =>
            rw [hc] at hout
            simp only [if_true] at hout
            cases he : henv.enqueueOk with
            | false =>
              rw [he] at hout
              simp only [Bool.false_eq_true, if_false] at hout
              cases hout
              exact pending_to_uploaded_write st _ hfresh hw rfl
            | true =>
              rw [he] at hout
              simp only [if_true] at hout
              cases hout
              simp [stCreate, hw, writesFollow]

theorem findByID_repoUpdate_append (repo : List TranscriptionJob)
    (jobR jobR' : TranscriptionJob) (jid : String)
    (hid1 : jobR.id = jid) (hid2 : jobR'.id = jid)
    (hfresh : findByID repo jid = none) :
    findByID (repoUpdate (repo ++ [jobR]) jobR') jid = some jobR' := by
  unfold findByID at hfresh ⊢
  unfold repoUpdate
  induction repo with
  | nil => simp [List.find?, hid1, hid2]
  | cons a l ih =>
    rw [List.find?_cons] at hfresh
    rw [List.cons_append, List.map_cons, List.find?_cons]
    cases hb : a.id == jid with
    | true => rw [hb] at hfresh; exact absurd hfresh (by simp)
    | false =>
      rw [hb] at hfresh
      have hba : (a.id == jobR'.id) = false := by rw [hid2, hb]
      rw [hba]
      simp only [if_false, Bool.false_eq_true]
      rw [hb]
      exact ih hfresh

theorem statusOf_stUpdate_stCreate (st : SysState) (jobR jobR' : TranscriptionJob)
    (jid : String) (hid1 : jobR.id = jid) (hid2 : jobR'.id = jid)
    (hfresh : findByID st.repo jid = none) :
    statusOf (stUpdate (stCreate st jobR) jobR').repo jid = some jobR'.status := by
  unfold statusOf stUpdate stCreate
  dsimp only
  rw [findByID_repoUpdate_append st.repo jobR jobR' jid hid1 hid2 hfresh]
  rfl

/-- Claim C5: when EnqueueJob fails for a freshly created Pending job, both
submission handlers set the job's status to Uploaded, persist it, and
still answer 200 instead of failing the request; Uploaded is distinct
from Pending. -/
theorem enqueue_failure_leaves_uploaded
    (henv : HandlerEnv) (newID : String) (req : S3TranscriptionRequest)
    (reqA : AWSTranscribeRequest) (m : MediaInput) (uriA : String)
    (st : SysState) (profile : TranscriptionProfile)
    (hp : henv.profile = some profile) (hc : henv.createOk = true)
    (he : henv.enqueueOk = false) (hfresh : findByID st.repo newID = none)
    (hm : reqA.media = some m) (hmf : m.mediaFileUri = some uriA) :
    (statusOf (submitS3Transcription henv newID (some req) st).1.repo newID
        = some JobStatus.uploaded ∧
     (submitS3Transcription henv newID (some req) st).2.getLast?.map Prod.fst = some 200) ∧
    (∃ st' resps, submitAWSTranscribeJob henv newID (some reqA) st = AWSOutcome.ok st' resps ∧
        statusOf st'.repo newID = some JobStatus.uploaded ∧
        resps.getLast?.map Prod.fst = some 200) ∧
    JobStatus.uploaded ≠ JobStatus.pending := by
  refine ⟨⟨?_, ?_⟩, ?_, ?_⟩
  · unfold submitS3Transcription
    rw [hp]
    dsimp only
    rw [hc]
    simp only [if_true]
    rw [he]
    simp only [Bool.false_eq_true, if_false]
    exact statusOf_stUpdate_stCreate st _ _ newID rfl rfl hfresh
  · unfold submitS3Transcription
    rw [hp]
    dsimp only
    rw [hc]
    simp only [if_true]
    rw [he]
    simp only [Bool.false_eq_true, if_false]
    rw [List.getLast?_append_cons]
    rfl
  · unfold submitAWSTranscribeJob
    rw [hp]
    dsimp only
    rw [hm]
    dsimp only
    rw [hmf]
    dsimp only
    rw [hc]
    simp only [if_true]
    rw [he]
    simp only [Bool.false_eq_true, if_false]
    refine ⟨_, _, rfl, ?_, ?_⟩
    · exact statusOf_stUpdate_stCreate st _ _ newID rfl rfl hfresh
    · rw [List.getLast?_append_cons]
      rfl
  · decide

/-- Claim C9: a request with a nil Media or nil MediaFileUri makes
SubmitAWSTranscribeJob write the 400 response and then — because the 400
is not followed by a return — dereference the nil pointer: the handler
panics with exactly that one response written (whenever the default
profile lookup succeeds). -/
theorem aws_nil_media_panics
    (henv : HandlerEnv) (newID : String) (reqA : AWSTranscribeRequest)
    (st : SysState) (profile : TranscriptionProfile)
    (hp : henv.profile = some profile)
    (hm : reqA.media = none ∨ ∃ m, reqA.media = some m ∧ m.mediaFileUri = none) :
    submitAWSTranscribeJob henv newID (some reqA) st
      = AWSOutcome.panicked [(400, RespBody.err "Media.MediaFileUri is required")] := by
  unfold submitAWSTranscribeJob
  rw [hp]
  dsimp only
  rcases hm with hm | ⟨m, hm, hmf⟩
  · rw [hm]
  · rw [hm]
    dsimp only
    rw [hmf]

/-- Claim C10: a request with an empty URI makes SubmitS3Transcription
write the 400 "URI is required" response without returning, then create a
Pending job whose audio path and audio URI are both the empty string,
enqueue it, and additionally write a 200 success response. -/
theorem empty_uri_double_response
    (henv : HandlerEnv) (newID : String) (req : S3TranscriptionRequest)
    (st : SysState) (profile : TranscriptionProfile)
    (hp : henv.profile = some profile) (hc : henv.createOk = true)
    (he : henv.enqueueOk = true) (hfresh : findByID st.repo newID = none)
    (hq : req.uri = "") :
    (submitS3Transcription henv newID (some req) st).2
      = [(400, RespBody.err "URI is required"), (200, RespBody.s3Success true)] ∧
    statusOf (submitS3Transcription henv newID (some req) st).1.repo newID
      = some JobStatus.pending ∧
    (findByID (submitS3Transcription henv newID (some req) st).1.repo newID).map
      (fun j => (j.audioPath, j.audioUri)) = some ("", some "") ∧
    newID ∈ (submitS3Transcription henv newID (some req) st).1.queue := by
  unfold submitS3Transcription
  rw [hp]
  dsimp only
  rw [hq]
  simp only [if_pos rfl]
  rw [hc]
  simp only [if_true]
  rw [he]
  simp only [if_true]
  have hfind := findByID_append_fresh st.repo
    ({ id := newID, audioPath := "", audioUri := some "",
       outputBucket := req.outputBucket, outputBucketName := none,
       title := none, tags := none, transcript := none,
       parameters := profile.parameters,
       diarization := profile.parameters.diarize,
       status := JobStatus.pending } : TranscriptionJob) newID rfl hfresh
  refine ⟨rfl, ?_, ?_, ?_⟩
  · unfold statusOf
    dsimp only [stCreate]
    rw [hfind]
    rfl
  · dsimp only [stCreate]
    rw [hfind]
    rfl
  · dsimp only [stCreate]
    simp

/-- Claim C6: when the backend result carries no aggregate text, the
canonical TranscriptResult's text is the space-joined concatenation of
its segment texts in segment order; when the aggregate text is non-empty,
the text is that field unchanged. -/
theorem parse_text_cases (w : WhisperxResult) :
    (w.text = "" →
      (parseWhisperxResult w).text
        = String.intercalate " " ((parseWhisperxResult w).segments.map (fun s => s.text)) ∧
      (parseWhisperxResult w).segments.map (fun s => s.text)
        = w.segments.map (fun s => s.text)) ∧
    (w.text ≠ "" → (parseWhisperxResult w).text = w.text) := by
  constructor
  · intro h
    constructor
    · simp [parseWhisperxResult, h, List.map_map, Function.comp]
      rfl
    · simp [parseWhisperxResult, List.map_map, Function.comp]
  · intro h
    simp [parseWhisperxResult, h]

theorem deletePhase_cons (a : String) (l : List String) (st : SysState) :
    deletePhase (a :: l) st = deletePhase l (removeOne st a) := rfl

theorem deletePhase_fs_mem (td : List String) (st : SysState) (x : String) :
    x ∈ (deletePhase td st).fs ↔ x ∈ st.fs ∧ x ∉ td := by
  induction td generalizing st with
  | nil => simp [deletePhase]
  | cons a l ih =>
    rw [deletePhase_cons, ih]
    simp only [removeOne, List.mem_filter, List.mem_cons]
    constructor
    · rintro ⟨⟨hx, hne⟩, hnl⟩
      exact ⟨hx, by simp_all⟩
    · rintro ⟨hx, hna⟩
      push_neg at hna
      exact ⟨⟨hx, by simpa using hna.1⟩, hna.2⟩

theorem deletePhase_cache_mem (td : List String) (st : SysState) (e : String × Int) :
    e ∈ (deletePhase td st).cache ↔ e ∈ st.cache ∧ e.1 ∉ td := by
  induction td generalizing st with
  | nil => simp [deletePhase]
  | cons a l ih =>
    rw [deletePhase_cons, ih]
    simp only [removeOne, List.mem_filter, List.mem_cons]
    constructor
    · rintro ⟨⟨hx, hne⟩, hnl⟩
      exact ⟨hx, by simp_all⟩
    · rintro ⟨hx, hna⟩
      push_neg at hna
      exact ⟨⟨hx, by simpa using hna.1⟩, hna.2⟩

theorem collectPhase_mem (now : Int) (cache : List (String × Int)) (p : String) :
    p ∈ collectPhase now cache ↔ ∃ t, (p, t) ∈ cache ∧ now - t > maxAge := by
  simp only [collectPhase, List.mem_map, List.mem_filter]
  constructor
  · rintro ⟨⟨a, b⟩, ⟨hm, hc⟩, rfl⟩
    exact ⟨b, hm, by simpa using hc⟩
  · rintro ⟨t, hm, hc⟩
    exact ⟨(p, t), ⟨hm, by simpa using hc⟩, rfl⟩

theorem cache_key_unique {l : List (String × Int)} (h : (l.map Prod.fst).Nodup)
    {p : String} {t t' : Int} (h1 : (p, t) ∈ l) (h2 : (p, t') ∈ l) : t = t' := by
  induction l with
  | nil => cases h1
  | cons a l ih =>
    rw [List.map_cons, List.nodup_cons] at h
    rcases List.mem_cons.mp h1 with he1 | h1'
    · rcases List.mem_cons.mp h2 with he2 | h2'
      · exact congrArg Prod.snd (he1.trans he2.symm)
      · exfalso
        apply h.1
        rw [← he1]
        show p ∈ List.map Prod.fst l
        exact List.mem_map_of_mem Prod.fst h2'
    · rcases List.mem_cons.mp h2 with he2 | h2'
      · exfalso
        apply h.1
        rw [← he2]
        show p ∈ List.map Prod.fst l
        exact List.mem_map_of_mem Prod.fst h1'
      · exact ih h.2 h1' h2'

/-- Claim C7: one sweep of the downloaded-files cleanup removes every
entry strictly older than the retention window from both the cache map
and the filesystem (an already-missing file is a no-op), leaves every
younger entry and its file untouched, and factors into the two
separately-locked phases (collect, then delete). -/
theorem cleanup_sweep_correct (now : Int) (st : SysState)
    (hnodup : (st.cache.map Prod.fst).Nodup) :
    (∀ p t, (p, t) ∈ st.cache → now - t > maxAge →
        (∀ t', (p, t') ∉ (cleanupSweep now st).cache) ∧ p ∉ (cleanupSweep now st).fs) ∧
    (∀ p t, (p, t) ∈ st.cache → ¬(now - t > maxAge) →
        (p, t) ∈ (cleanupSweep now st).cache ∧ (p ∈ st.fs → p ∈ (cleanupSweep now st).fs)) ∧
    cleanupSweep now st = deletePhase (collectPhase now st.cache) st := by
  refine ⟨?_, ?_, rfl⟩
  · intro p t hm hstale
    have hcol : p ∈ collectPhase now st.cache := (collectPhase_mem now st.cache p).mpr ⟨t, hm, hstale⟩
    constructor
    · intro t' hmem
      exact ((deletePhase_cache_mem _ st (p, t')).mp hmem).2 hcol
    · intro hmem
      exact ((deletePhase_fs_mem _ st p).mp hmem).2 hcol
  · intro p t hm hyoung
    have hcol : p ∉ collectPhase now st.cache := by
      intro hc
      rcases (collectPhase_mem now st.cache p).mp hc with ⟨t'', hm'', hst''⟩
      exact hyoung (cache_key_unique hnodup hm hm'' ▸ hst'')
    exact ⟨(deletePhase_cache_mem _ st (p, t)).mpr ⟨hm, hcol⟩,
      fun hfs => (deletePhase_fs_mem _ st p).mpr ⟨hfs, hcol⟩⟩

theorem notification_failure_no_state_change (env : ProcEnv) (j e msg : String)
    (st : SysState) (hfail : ∀ j' e', env.putEvents j' e' = Except.error msg) :
    publishNotifications env j e st = st := by
  unfold publishNotifications
  split
  · rfl
  · rw [hfail]

theorem upload_failure_marks_failed
    (env : ProcEnv) (uploadDir : String) (job : TranscriptionJob) (st : SysState)
    (uri t msg bucket : String) (b k : List Char)
    (hrepo : st.repo = [job]) (hpend : job.status = JobStatus.pending)
    (huri : job.audioUri = some uri)
    (hs3 : listStartsWith uri.data s3SchemeChars = true)
    (hsplit : splitN2Slash (uri.data.drop 5) = some (b, k))
    (hok : ∀ b' k', env.getObject b' k' = Except.ok ())
    (huni : env.unified job.id = Except.ok t) (ht : t ≠ "")
    (hbucket : job.outputBucketName = some bucket)
    (hput : ∀ b' k', env.putObject b' k' = Except.error msg) :
    statusOf (workerStep env uploadDir job.id st).repo job.id = some JobStatus.failed ∧
    (job.id, JobStatus.processing, JobStatus.completed)
      ∈ (workerStep env uploadDir job.id st).writes ∧
    (job.id, JobStatus.completed, JobStatus.failed)
      ∈ (workerStep env uploadDir job.id st).writes := by
  simp [workerStep, processJob, processSingleJob, processTail, unifiedProcess, uploadToS3,
    publishNotifications_repo, publishNotifications_writes,
    procDownloadS3File, stUpdate, repoUpdate, findByID, statusOf, List.find?,
    hrepo, hpend, huri, hs3, hsplit, hok, huni, ht, hbucket, hput]


/-! ## Claim theorems, counterexamples, and witnesses -/

/-- Claim C1 (amended): when the remote S3 fetch fails during resolution,
ProcessSingleJob aborts with an error, but only after the Pending job has
already been advanced to Processing and persisted — the persisted status
at the point of abort is Processing, not Pending. -/
theorem fetch_failure_aborts_in_processing
    (env : ProcEnv) (uploadDir : String) (job : TranscriptionJob) (st : SysState)
    (uri msg : String)
    (hrepo : st.repo = [job]) (hpend : job.status = JobStatus.pending)
    (huri : job.audioUri = some uri)
    (hs3 : listStartsWith uri.data s3SchemeChars = true)
    (hfail : ∀ b k, env.getObject b k = Except.error msg) :
    exceptIsError (processSingleJob env uploadDir job.id st).2 = true ∧
    statusOf (processSingleJob env uploadDir job.id st).1.repo job.id
      = some JobStatus.processing := by
  have hfind : findByID st.repo job.id = some job := by
    rw [hrepo]; exact findByID_singleton job
  have hup := stUpdate_singleton st job
    { job with audioUri := some uri, status := JobStatus.processing } hrepo rfl
  unfold processSingleJob
  rw [hfind]
  simp only [hpend, if_pos, huri, hs3, if_true, procDownloadS3File]
  cases hsplit : splitN2Slash (uri.data.drop 5) with
  | none =>
      simp [hsplit, hup, exceptIsError, statusOf, findByID, List.find?]
  | some bk =>
      obtain ⟨b, k⟩ := bk
      simp [hsplit, hup, hfail, exceptIsError, statusOf, findByID, List.find?]

/-- Claim C1 counterexample: for a Pending job whose S3 fetch fails,
ProcessSingleJob returns an error, yet the persisted status has already
left Pending — it is Processing, contradicting "the job's persisted
status never leaves Pending for that run". -/
theorem fetch_failure_leaves_pending_cx :
    jobC1.status = JobStatus.pending ∧
    exceptIsError (processSingleJob envC1 "uploads" "job-c1" stC1).2 = true ∧
    statusOf (processSingleJob envC1 "uploads" "job-c1" stC1).1.repo "job-c1"
      = some JobStatus.processing := by
  decide

/-- Claim C1 witness: the amended theorem at a concrete failing fetch. -/
theorem fetch_failure_aborts_in_processing_witness :
    stC1.repo = [jobC1] ∧
    (exceptIsError (processSingleJob envC1 "uploads" jobC1.id stC1).2 = true ∧
     statusOf (processSingleJob envC1 "uploads" jobC1.id stC1).1.repo jobC1.id
       = some JobStatus.processing) :=
  ⟨rfl, fetch_failure_aborts_in_processing envC1 "uploads" jobC1 stC1
    "s3://bkt/clip1.mp3" "network down" rfl rfl rfl (by decide) (fun _ _ => rfl)⟩

/-- First resolution through the audio-serving wrapper on a cache miss:
one fetch, the job record updated, the file created. -/
theorem wrapper_miss_step
    (env : ProcEnv) (now : Int) (uploadDir : String) (job : TranscriptionJob)
    (st : SysState) (uri : String) (b k : List Char)
    (hrepo : st.repo = [job]) (huri : job.audioUri = some uri)
    (hs3 : listStartsWith uri.data s3SchemeChars = true)
    (hsplit : splitN2Slash (uri.data.drop 5) = some (b, k))
    (hok : ∀ b' k', env.getObject b' k' = Except.ok ())
    (hmiss : st.fs.contains (filepathJoin uploadDir (filepathBase uri)) = false) :
    (getAudioFileResolve env now uploadDir job.id st).1.fetches = st.fetches + 1 ∧
    (getAudioFileResolve env now uploadDir job.id st).1.repo = [{ job with audioUri := some uri, audioPath := filepathJoin uploadDir (filepathBase uri) }] ∧
    (getAudioFileResolve env now uploadDir job.id st).1.fs = filepathJoin uploadDir (filepathBase uri) :: st.fs := by
  have hfind : findByID st.repo job.id = some job := by
    rw [hrepo]; exact findByID_singleton job
  unfold getAudioFileResolve
  rw [hfind]
  simp only [huri, hs3, if_true, hmiss, Bool.false_eq_true, if_false, downloadFile,
    fsDownloadS3File, hsplit, hok]
  simp [stUpdate, hrepo, repoUpdate]

/-- Second resolution through the audio-serving wrapper on a cache hit:
no fetch happens. -/
theorem wrapper_hit_step
    (env : ProcEnv) (now : Int) (uploadDir : String) (job : TranscriptionJob)
    (st : SysState) (uri : String)
    (hrepo : st.repo = [job]) (huri : job.audioUri = some uri)
    (hs3 : listStartsWith uri.data s3SchemeChars = true)
    (hhit : st.fs.contains (filepathJoin uploadDir (filepathBase uri)) = true) :
    (getAudioFileResolve env now uploadDir job.id st).1.fetches = st.fetches := by
  have hfind : findByID st.repo job.id = some job := by
    rw [hrepo]; exact findByID_singleton job
  unfold getAudioFileResolve
  rw [hfind]
  simp only [huri, hs3, if_true, hhit]
  simp [stUpdate]

/-- Claim C2 (amended): on the audio-serving wrapper's resolution path
(GetAudioFileWrapper) the download is issued only when no local file
exists at uploadDir/Base(uri); resolving the same remote reference twice
there performs exactly one network fetch — the second resolution is a
cache hit.  (The worker's ProcessSingleJob path, by contrast, re-downloads
unconditionally; see the counterexample.) -/
theorem wrapper_resolution_single_fetch
    (env : ProcEnv) (now now' : Int) (uploadDir : String) (job : TranscriptionJob)
    (st : SysState) (uri : String) (b k : List Char)
    (hrepo : st.repo = [job]) (huri : job.audioUri = some uri)
    (hs3 : listStartsWith uri.data s3SchemeChars = true)
    (hsplit : splitN2Slash (uri.data.drop 5) = some (b, k))
    (hok : ∀ b' k', env.getObject b' k' = Except.ok ())
    (hmiss : st.fs.contains (filepathJoin uploadDir (filepathBase uri)) = false) :
    ((getAudioFileResolve env now uploadDir job.id st).1).fetches = st.fetches + 1 ∧
    ((getAudioFileResolve env now' uploadDir job.id
        (getAudioFileResolve env now uploadDir job.id st).1).1).fetches
      = st.fetches + 1 := by
  obtain ⟨hf1, hr1, hfs1⟩ :=
    wrapper_miss_step env now uploadDir job st uri b k hrepo huri hs3 hsplit hok hmiss
  refine ⟨hf1, ?_⟩
  have hhit1 : ((getAudioFileResolve env now uploadDir job.id st).1).fs.contains
      (filepathJoin uploadDir (filepathBase uri)) = true := by
    rw [hfs1]; simp [List.contains]
  have h2 := wrapper_hit_step env now' uploadDir
    { job with audioUri := some uri, audioPath := filepathJoin uploadDir (filepathBase uri) }
    (getAudioFileResolve env now uploadDir job.id st).1 uri hr1 rfl hs3 hhit1
  rw [h2, hf1]

/-- Claim C2 counterexample: the worker resolution path (ProcessSingleJob)
issues the S3 fetch even though the derived local file already exists,
and a second resolution fetches again — two network fetches for two
resolutions of the same reference, not one. -/
theorem worker_unconditional_redownload_cx :
    "uploads/clip2.mp3" ∈ stC2.fs ∧
    (processSingleJob envC2 "uploads" "job-c2" stC2).1.fetches = 1 ∧
    (processSingleJob envC2 "uploads" "job-c2"
        ((processSingleJob envC2 "uploads" "job-c2" stC2).1)).1.fetches = 2 := by
  decide

/-- Claim C2 witness: the amended theorem at a concrete cache miss. -/
theorem wrapper_resolution_single_fetch_witness :
    stC2w.fs.contains (filepathJoin "uploads" (filepathBase "s3://bkt/clip2.mp3")) = false ∧
    (((getAudioFileResolve envC2 5 "uploads" jobC2.id stC2w).1).fetches = stC2w.fetches + 1 ∧
     ((getAudioFileResolve envC2 6 "uploads" jobC2.id
        (getAudioFileResolve envC2 5 "uploads" jobC2.id stC2w).1).1).fetches
       = stC2w.fetches + 1) :=
  ⟨by decide, wrapper_resolution_single_fetch envC2 5 6 "uploads" jobC2 stC2w
    "s3://bkt/clip2.mp3" (String.data "bkt") (String.data "clip2.mp3")
    rfl rfl (by decide) (by decide) (fun _ _ => rfl) (by decide)⟩

/-- Claim C3 (amended): a failing EventBridge lifecycle notification is
logged only — publishNotifications leaves the whole state unchanged; but
a failing post-completion transcript upload is NOT isolated: it is
returned as a processing error, and the worker then marks the job — whose
persisted status had already reached Completed — as Failed. -/
theorem publication_failure_isolation
    (env : ProcEnv) (uploadDir : String) (job : TranscriptionJob) (st : SysState)
    (uri t msg bucket : String) (b k : List Char)
    (hrepo : st.repo = [job]) (hpend : job.status = JobStatus.pending)
    (huri : job.audioUri = some uri)
    (hs3 : listStartsWith uri.data s3SchemeChars = true)
    (hsplit : splitN2Slash (uri.data.drop 5) = some (b, k))
    (hok : ∀ b' k', env.getObject b' k' = Except.ok ())
    (huni : env.unified job.id = Except.ok t) (ht : t ≠ "")
    (hbucket : job.outputBucketName = some bucket)
    (hput : ∀ b' k', env.putObject b' k' = Except.error msg) :
    (∀ (env' : ProcEnv) (jid ev msg' : String) (st' : SysState),
        (∀ j' e', env'.putEvents j' e' = Except.error msg') →
        publishNotifications env' jid ev st' = st') ∧
    (statusOf (workerStep env uploadDir job.id st).repo job.id = some JobStatus.failed ∧
     (job.id, JobStatus.processing, JobStatus.completed)
       ∈ (workerStep env uploadDir job.id st).writes ∧
     (job.id, JobStatus.completed, JobStatus.failed)
       ∈ (workerStep env uploadDir job.id st).writes) :=
  ⟨fun env' jid ev msg' st' hf =>
      notification_failure_no_state_change env' jid ev msg' st' hf,
   upload_failure_marks_failed env uploadDir job st uri t msg bucket b k
     hrepo hpend huri hs3 hsplit hok huni ht hbucket hput⟩

/-- Claim C3 counterexample: with every collaborator succeeding except
PutObject, the job's persisted status reaches Completed and is then
flipped to Failed by the worker; with PutObject succeeding the same run
ends Completed — the upload failure is what flips the terminal status. -/
theorem upload_failure_flips_completed_cx :
    statusOf (workerStep envC3 "uploads" "job-c3" stC3).repo "job-c3"
      = some JobStatus.failed ∧
    (workerStep envC3 "uploads" "job-c3" stC3).writes
      = [("job-c3", JobStatus.pending, JobStatus.processing),
         ("job-c3", JobStatus.processing, JobStatus.processing),
         ("job-c3", JobStatus.processing, JobStatus.completed),
         ("job-c3", JobStatus.completed, JobStatus.failed)] ∧
    statusOf (workerStep envC3ok "uploads" "job-c3" stC3).repo "job-c3"
      = some JobStatus.completed := by
  decide

/-- Claim C3 witness: the amended theorem at a concrete run with a failing
transcript upload, and the notification part at a failing event bus. -/
theorem publication_failure_isolation_witness :
    publishNotifications envEvFail "job-c3" "COMPLETED" stC3 = stC3 ∧
    statusOf (workerStep envC3 "uploads" jobC3.id stC3).repo jobC3.id
      = some JobStatus.failed ∧
    (jobC3.id, JobStatus.processing, JobStatus.completed)
      ∈ (workerStep envC3 "uploads" jobC3.id stC3).writes ∧
    (jobC3.id, JobStatus.completed, JobStatus.failed)
      ∈ (workerStep envC3 "uploads" jobC3.id stC3).writes := by
  have h := publication_failure_isolation envC3 "uploads" jobC3 stC3
    "s3://bkt/clip3.mp3" "text" "put-denied" "outbkt"
    (String.data "bkt") (String.data "clip3.mp3")
    rfl rfl rfl (by decide) (by decide) (fun _ _ => rfl) rfl (by decide) rfl
    (fun _ _ => rfl)
  exact ⟨h.1 envEvFail "job-c3" "COMPLETED" "bus down" stC3 (fun _ _ => rfl),
    h.2.1, h.2.2.1, h.2.2.2⟩

/-- Claim C4 (amended): every persisted status change produced by a worker
run on a Pending job, or by either submission handler, follows the edges
Pending→Processing, Processing→Completed, Processing→Failed,
Pending→Uploaded — or the additional edge Completed→Failed, which the
code takes when the post-completion transcript upload fails and the
worker marks the already-Completed job Failed. -/
theorem status_transitions_follow_actual_edges :
    (∀ (env : ProcEnv) (uploadDir : String) (job : TranscriptionJob) (st : SysState),
        st.repo = [job] → job.status = JobStatus.pending → st.writes = [] →
        writesFollow isActualEdge (workerStep env uploadDir job.id st).writes = true) ∧
    (∀ (henv : HandlerEnv) (newID : String) (req? : Option S3TranscriptionRequest)
        (st : SysState),
        findByID st.repo newID = none → st.writes = [] →
        writesFollow isActualEdge (submitS3Transcription henv newID req? st).1.writes
          = true) ∧
    (∀ (henv : HandlerEnv) (newID : String) (req? : Option AWSTranscribeRequest)
        (st st' : SysState) (resps : List (Nat × RespBody)),
        findByID st.repo newID = none → st.writes = [] →
        submitAWSTranscribeJob henv newID req? st = AWSOutcome.ok st' resps →
        writesFollow isActualEdge st'.writes = true) :=
  ⟨fun env uploadDir job st h1 h2 h3 => worker_edges env uploadDir job st h1 h2 h3,
   fun henv newID req? st h1 h2 => submitS3_edges henv newID req? st h1 h2,
   fun henv newID req? st st' resps h1 h2 h3 =>
     submitAWS_edges henv newID req? st st' resps h1 h2 h3⟩

/-- Claim C4 counterexample: a concrete worker run produces the persisted
edge Completed→Failed, which is not among the claimed edges — the claimed
edge relation rejects the run's write log. -/
theorem completed_to_failed_edge_cx :
    ("job-c4", JobStatus.completed, JobStatus.failed)
      ∈ (workerStep envC4 "uploads" "job-c4" stC4).writes ∧
    isClaimedEdge JobStatus.completed JobStatus.failed = false ∧
    writesFollow isClaimedEdge (workerStep envC4 "uploads" "job-c4" stC4).writes
      = false := by
  decide

/-- Claim C4 witness: the amended theorem at a concrete worker run and
concrete submissions through both handlers. -/
theorem status_transitions_follow_actual_edges_witness :
    writesFollow isActualEdge (workerStep envC4 "uploads" jobC4.id stC4).writes = true ∧
    writesFollow isActualEdge
      (submitS3Transcription henvNoQueue "job-w4s" (some reqW4s) emptySt).1.writes = true ∧
    writesFollow isActualEdge
      (awsFinalState (submitAWSTranscribeJob henvNoQueue "job-w4" (some reqW4) emptySt)
        emptySt).writes = true :=
  ⟨status_transitions_follow_actual_edges.1 envC4 "uploads" jobC4 stC4 rfl rfl rfl,
   status_transitions_follow_actual_edges.2.1 henvNoQueue "job-w4s" (some reqW4s) emptySt
     rfl rfl,
   status_transitions_follow_actual_edges.2.2 henvNoQueue "job-w4" (some reqW4) emptySt
     (awsFinalState (submitAWSTranscribeJob henvNoQueue "job-w4" (some reqW4) emptySt)
       emptySt)
     (awsResponses (submitAWSTranscribeJob henvNoQueue "job-w4" (some reqW4) emptySt))
     rfl rfl (by decide)⟩

/-- Claim C5 witness: both handlers at a concrete enqueue failure. -/
theorem enqueue_failure_leaves_uploaded_witness :
    (statusOf (submitS3Transcription henvNoQueue "job-c5" (some reqC5) emptySt).1.repo
        "job-c5" = some JobStatus.uploaded ∧
     (submitS3Transcription henvNoQueue "job-c5" (some reqC5) emptySt).2.getLast?.map
        Prod.fst = some 200) ∧
    (∃ st' resps,
        submitAWSTranscribeJob henvNoQueue "job-c5" (some reqAC5) emptySt
          = AWSOutcome.ok st' resps ∧
        statusOf st'.repo "job-c5" = some JobStatus.uploaded ∧
        resps.getLast?.map Prod.fst = some 200) ∧
    JobStatus.uploaded ≠ JobStatus.pending :=
  enqueue_failure_leaves_uploaded henvNoQueue "job-c5" reqC5 reqAC5 mC5
    "s3://bkt/a5.mp3" emptySt profileX rfl rfl rfl rfl rfl rfl

/-- Claim C6 witness: the parse theorem at a concrete payload without an
aggregate text (the text is reconstructed by joining the segments) and at
a concrete payload with one (the text is kept unchanged). -/
theorem parse_text_cases_witness :
    (parseWhisperxResult wC6).text = "hello world" ∧
    (parseWhisperxResult wC6).text
      = String.intercalate " " ((parseWhisperxResult wC6).segments.map (fun s => s.text)) ∧
    (parseWhisperxResult wC6b).text = "aggregate" :=
  ⟨by decide, ((parse_text_cases wC6).1 rfl).1, (parse_text_cases wC6b).2 (by decide)⟩

/-- Claim C7 witness: the sweep theorem at a concrete cache with one stale
and one young entry. -/
theorem cleanup_sweep_correct_witness :
    ("old-file", 0) ∉ (cleanupSweep 20000 stC7).cache ∧
    "old-file" ∉ (cleanupSweep 20000 stC7).fs ∧
    ("young-file", 15000) ∈ (cleanupSweep 20000 stC7).cache ∧
    "young-file" ∈ (cleanupSweep 20000 stC7).fs :=
  ⟨((cleanup_sweep_correct 20000 stC7 (by decide)).1 "old-file" 0 (by decide)
      (by decide)).1 0,
   ((cleanup_sweep_correct 20000 stC7 (by decide)).1 "old-file" 0 (by decide)
      (by decide)).2,
   ((cleanup_sweep_correct 20000 stC7 (by decide)).2.1 "young-file" 15000 (by decide)
      (by decide)).1,
   ((cleanup_sweep_correct 20000 stC7 (by decide)).2.1 "young-file" 15000 (by decide)
      (by decide)).2 (by decide)⟩

/-- Claim C8: at a well-formed S3 submission that is created, enqueued and
answered 200, the response body is the literal field job_id = true — a Go
boolean, not the created job's identifier; no response of that run
carries the identifier.  The sibling AWS handler's success response does
carry it, evidencing the intent. -/
theorem s3_response_jobid_not_identifier :
    (submitS3Transcription henvOk "job-c8" (some reqC8) emptySt).2
      = [(200, RespBody.s3Success true)] ∧
    ((submitS3Transcription henvOk "job-c8" (some reqC8) emptySt).2.all
      (fun r => !(respContainsJobID r.2 "job-c8"))) = true ∧
    ((awsResponses (submitAWSTranscribeJob henvOk "job-c8" (some reqAC8) emptySt)).any
      (fun r => respContainsJobID r.2 "job-c8")) = true := by
  decide

/-- Claim C9 witness: the panic theorem at a concrete nil-Media request. -/
theorem aws_nil_media_panics_witness :
    submitAWSTranscribeJob henvOk "job-c9" (some reqC9) emptySt
      = AWSOutcome.panicked [(400, RespBody.err "Media.MediaFileUri is required")] :=
  aws_nil_media_panics henvOk "job-c9" reqC9 emptySt profileX rfl (Or.inl rfl)

/-- Claim C10 witness: the empty-URI theorem at a concrete request. -/
theorem empty_uri_double_response_witness :
    (submitS3Transcription henvOk "job-c10" (some reqC10) emptySt).2
      = [(400, RespBody.err "URI is required"), (200, RespBody.s3Success true)] ∧
    statusOf (submitS3Transcription henvOk "job-c10" (some reqC10) emptySt).1.repo
      "job-c10" = some JobStatus.pending ∧
    (findByID (submitS3Transcription henvOk "job-c10" (some reqC10) emptySt).1.repo
      "job-c10").map (fun j => (j.audioPath, j.audioUri)) = some ("", some "") ∧
    "job-c10" ∈ (submitS3Transcription henvOk "job-c10" (some reqC10) emptySt).1.queue :=
  empty_uri_double_response henvOk "job-c10" reqC10 emptySt profileX rfl rfl rfl rfl rfl

end Scriberr
